import Mathlib

/-!
# Verification of RemoteAchiko.cpp (native bootstrapper DLL)

Shallow embedding of `src/RemoteAchiko/RemoteAchiko.cpp`.

The module consists of three pieces:
* `LogToPipe` — best-effort named-pipe logging sink (lazy single open
  attempt, truncating `vsnprintf_s` into a 1024-byte buffer, message body
  followed by a two-byte CRLF);
* `BuildManagedPath` — derives the sibling `AchikoDLL.dll` path from the
  module's own on-disk path (`GetModuleFileNameW`, truncate after the last
  backslash, append the fixed file name, `StringCch*` truncation at
  MAX_PATH);
* `BootstrapThread` — the CLR bring-up sequence
  (`CLRCreateInstance` → `GetRuntime` → `GetInterface` → `Start` →
  `BuildManagedPath` → `ExecuteInDefaultAppDomain`), logging each outcome;
* `DllMain` `DLL_PROCESS_DETACH` — three log calls, then close the pipe
  handle if it is open.

External calls (COM HRESULTs, `GetModuleFileNameW` success, pipe-open
success, `ExecuteInDefaultAppDomain` outcome) are supplied by an
environment record `Env`; the functions return the trace of externally
visible actions (an `Event` list) together with the relevant final state.
HRESULTs are modelled as `Int` with `FAILED hr ↔ hr < 0`.
-/

/-- `FAILED(hr)` for an HRESULT: negative means failure. -/
def FAILED (hr : Int) : Bool := hr < 0

/-- `SUCCEEDED(hr)` for an HRESULT: non-negative means success. -/
def SUCCEEDED (hr : Int) : Bool := 0 ≤ hr

/-- One printf-style variadic argument passed to `LogToPipe`. -/
inductive LogArg where
  | i (v : Int)
  | n (v : Nat)
  | path (p : List Char)
  deriving DecidableEq

/-- An externally visible action of the module: a `LogToPipe` call (format
string plus varargs), a CLR-hosting call, a COM `Release`, the
`BuildManagedPath` path derivation, the managed invocation, or closing the
pipe handle. -/
inductive Event where
  | log (fmt : String) (args : List LogArg)
  | clrCreateInstance
  | getRuntime (version : String)
  | releaseMetaHost
  | getInterface
  | releaseRuntimeInfo
  | startCLR
  | releaseClrHost
  | buildPath
  | execute (assemblyPath : List Char) (typeName methodName arg : String)
  | closePipeHandle
  deriving DecidableEq

/-- Outcomes of the external calls the module makes, fixed by the host
process and machine. `payloadFileExists` records whether `AchikoDLL.dll`
is actually present on disk; the code never queries it, and it is carried
here so that claims about the file's absence can be stated. -/
structure Env where
  clrCreateInstanceHr : Int
  getRuntimeHr : Int
  getInterfaceHr : Int
  startHr : Int
  moduleFileNameOk : Bool
  modulePath : String
  payloadFileExists : Bool
  executeHr : Int
  executeRet : Nat

/-- Replace the `payloadFileExists` field of an environment. -/
def setPayloadFileExists (env : Env) (b : Bool) : Env :=
  ⟨env.clrCreateInstanceHr, env.getRuntimeHr, env.getInterfaceHr,
   env.startHr, env.moduleFileNameOk, env.modulePath, b,
   env.executeHr, env.executeRet⟩

/-- `wcsrchr(s, L'\\')` followed by truncation one past the match: keep
the characters of `s` up to and including the last backslash, or `none`
when `s` contains no backslash. -/
def keepThroughLastSlash : List Char → Option (List Char)
  | [] => none
  | c :: cs =>
    match keepThroughLastSlash cs with
    | some t => some (c :: t)
    | none => if c = '\\' then some [c] else none

/-- `GetModuleFileNameW(g_hModule, buf, MAX_PATH)`: fails (returns 0)
when the environment says so; otherwise yields the module's path,
truncated to the MAX_PATH-1 = 259 characters the buffer can hold. -/
def GetModuleFileNameW (env : Env) : Option (List Char) :=
  if env.moduleFileNameOk then some (env.modulePath.data.take 259) else none

/-- `BuildManagedPath`: resolve the module's own path, truncate after the
last backslash, append `AchikoDLL.dll` (`StringCchCatW` keeps at most
MAX_PATH-1 = 259 characters), and return the result; `none` on failure. -/
def BuildManagedPath (env : Env) : Option (List Char) :=
  match GetModuleFileNameW env with
  | none => none
  | some ourPath =>
    match keepThroughLastSlash ourPath with
    | none => none
    | some dir => some ((dir ++ "AchikoDLL.dll".data).take 259)

/-- `BootstrapThread`: the CLR bring-up sequence, returning the trace of
actions performed and whether `g_clrHost` is non-null when the thread
exits. `g_clrHost` starts null, is set by a successful `GetInterface`,
and is released and reset to null when `Start` fails. -/
def BootstrapThread (env : Env) : List Event × Bool :=
  let t1 : List Event :=
    [Event.log "=======================================" [],
     Event.log "RemoteAchiko: Bootstrap thread started" [],
     Event.log "Initializing .NET 4.0 CLR in WoW process..." [],
     Event.clrCreateInstance]
  if FAILED env.clrCreateInstanceHr then
    (t1 ++ [Event.log "RemoteAchiko: CLRCreateInstance failed: 0x%08X"
              [LogArg.i env.clrCreateInstanceHr]], false)
  else
    let t2 := t1 ++ [Event.getRuntime "v4.0.30319", Event.releaseMetaHost]
    if FAILED env.getRuntimeHr then
      (t2 ++ [Event.log "RemoteAchiko: GetRuntime failed: 0x%08X"
                [LogArg.i env.getRuntimeHr]], false)
    else
      let t3 := t2 ++ [Event.getInterface]
      if FAILED env.getInterfaceHr then
        (t3 ++ [Event.log "RemoteAchiko: GetInterface failed: 0x%08X"
                  [LogArg.i env.getInterfaceHr],
                Event.releaseRuntimeInfo], false)
      else
        let t4 := t3 ++ [Event.startCLR]
        if FAILED env.startHr then
          (t4 ++ [Event.log "RemoteAchiko: CLR Start() failed: 0x%08X"
                    [LogArg.i env.startHr],
                  Event.releaseClrHost, Event.releaseRuntimeInfo], false)
        else
          let t5 := t4 ++
            [Event.releaseRuntimeInfo,
             Event.log "RemoteAchiko: CLR started successfully - .NET 4.0 is now running inside WoW" [],
             Event.buildPath]
          match BuildManagedPath env with
          | none =>
            (t5 ++ [Event.log "RemoteAchiko: Failed to build path to AchikoDLL.dll" []], true)
          | some managedPath =>
            let t6 := t5 ++
              [Event.log "RemoteAchiko: Loading managed assembly: %ws"
                 [LogArg.path managedPath],
               Event.execute managedPath "AchikoDLL.Loader" "Start" ""]
            let t7 :=
              if SUCCEEDED env.executeHr && env.executeRet == 0 then
                t6 ++
                  [Event.log "RemoteAchiko: Loader.Start() succeeded - bot is LIVE!" [],
                   Event.log "RemoteAchiko: BotCore thread started - awaiting UI enable command" [],
                   Event.log "=======================================" []]
              else
                t6 ++
                  [Event.log "RemoteAchiko: Loader.Start() FAILED - hr=0x%08X, ret=%d"
                     [LogArg.i env.executeHr, LogArg.n env.executeRet],
                   Event.log "=======================================" []]
            (t7 ++ [Event.log "RemoteAchiko: Bootstrap thread exiting - managed bot is now autonomous" []],
             true)

/-- `DllMain` on `DLL_PROCESS_DETACH`: three `LogToPipe` calls (each of
which lazily opens the pipe when it is not yet open; `o1 o2 o3` say
whether each such open attempt would succeed), then close the pipe handle
when it is open. `st` is the pipe state (open?) on entry; the second
component is the pipe state on exit. -/
def DllMainDetach (st o1 o2 o3 : Bool) : List Event × Bool :=
  let st1 := st || o1
  let st2 := st1 || o2
  let st3 := st2 || o3
  let evs : List Event :=
    [Event.log "=======================================" [],
     Event.log "RemoteAchiko: DLL unloading — goodbye!" [],
     Event.log "=======================================" []]
  if st3 then (evs ++ [Event.closePipeHandle], false) else (evs, false)

/-- Byte-level result of one `LogToPipe` call. -/
structure LogResult where
  pipeOpenAfter : Bool
  openAttempts : Nat
  sleeps : Nat
  chunks : List (List Nat)
  deriving DecidableEq

/-- The buffer contents after
`vsnprintf_s(buffer, 1024, _TRUNCATE, format, args)`: the formatted
output truncated to the 1023 bytes the buffer can hold beside the NUL. -/
def formatBuffer (msg : List Nat) : List Nat := msg.take 1023

/-- `strlen`: bytes before the first NUL. -/
def strlen (b : List Nat) : Nat := (b.takeWhile (fun x => x ≠ 0)).length

/-- The first `strlen` bytes of the formatted buffer: what the first
`WriteFile` sends. -/
def writtenBody (msg : List Nat) : List Nat :=
  (formatBuffer msg).takeWhile (fun x => x ≠ 0)

/-- `LogToPipe`, byte level. `openSucceeds` says whether `CreateFileA` on
the pipe would succeed now; `pipeOpen` is the `g_hPipe` state on entry;
`msg` is the formatted output of the format string and varargs. When the
pipe is (or becomes) open, the call writes the NUL-terminated truncated
body and then the two bytes `\r\n`; otherwise it returns without
writing. The sink never sleeps and makes at most one open attempt. -/
def LogToPipe (openSucceeds pipeOpen : Bool) (msg : List Nat) : LogResult :=
  if pipeOpen then
    ⟨true, 0, 0, [writtenBody msg, [13, 10]]⟩
  else if openSucceeds then
    ⟨true, 1, 0, [writtenBody msg, [13, 10]]⟩
  else
    ⟨false, 1, 0, []⟩

/-- Is this event a CLR-hosting call (locator acquisition, runtime
resolution, host-interface acquisition, runtime start, or managed
invocation)? -/
def isHostingCall : Event → Bool
  | Event.clrCreateInstance => true
  | Event.getRuntime _ => true
  | Event.getInterface => true
  | Event.startCLR => true
  | Event.execute _ _ _ _ => true
  | _ => false

/-- Is this event a managed invocation (`ExecuteInDefaultAppDomain`)? -/
def isExec : Event → Bool
  | Event.execute _ _ _ _ => true
  | _ => false

/-- Is this event a `LogToPipe` call? -/
def isLog : Event → Bool
  | Event.log _ _ => true
  | _ => false

/-- Every invocation event in sight passes the empty string argument. -/
def execArgEmpty : Event → Bool
  | Event.execute _ _ _ a => a == ""
  | _ => true

/-- The non-logging events of a trace, in order. -/
def coreEvents (t : List Event) : List Event := t.filter (fun e => !isLog e)

/-- An environment in which every external call succeeds. -/
def envOk : Env :=
  ⟨0, 0, 0, 0, true, "C:\\Game\\RemoteAchiko.dll", true, 0, 0⟩

/-- All calls succeed but the payload file is absent on disk. -/
def envNoFile : Env :=
  ⟨0, 0, 0, 0, true, "C:\\Game\\RemoteAchiko.dll", false, 0, 0⟩

/-- `Start()` fails; everything before it succeeds. -/
def envStartFails : Env :=
  ⟨0, 0, 0, -2147467259, true, "C:\\Game\\RemoteAchiko.dll", true, 0, 0⟩

/-- The managed invocation fails; everything before it succeeds. -/
def envExecFails : Env :=
  ⟨0, 0, 0, 0, true, "C:\\Game\\RemoteAchiko.dll", true, -2147467259, 0⟩

/-- `GetModuleFileNameW` fails; every CLR call succeeds. -/
def envNoModulePath : Env :=
  ⟨0, 0, 0, 0, false, "", true, 0, 0⟩

/-- `GetRuntime` fails; `CLRCreateInstance` succeeds. -/
def envGetRuntimeFails : Env :=
  ⟨0, -2147467259, 0, 0, true, "C:\\Game\\RemoteAchiko.dll", true, 0, 0⟩

/-- The length of a `takeWhile` never exceeds the length of the list. -/
lemma length_takeWhile_le (p : Nat → Bool) (l : List Nat) :
    (l.takeWhile p).length ≤ l.length := by
  induction l with
  | nil => simp [List.takeWhile]
  | cons a t ih =>
    simp only [List.takeWhile]
    split
    · simpa using ih
    · simp

/-- The body a `LogToPipe` call writes fits in the 1024-byte buffer. -/
lemma writtenBody_le (m : List Nat) : (writtenBody m).length ≤ 1023 := by
  have h1 := length_takeWhile_le (fun x => x ≠ 0) (formatBuffer m)
  have h2 : (formatBuffer m).length ≤ 1023 := by
    simp [formatBuffer]
  calc (writtenBody m).length ≤ (formatBuffer m).length := h1
    _ ≤ 1023 := h2

/-- C1 counterexample: when `Start()` fails (everything before it
succeeding), the bootstrap worker does call `Release()` on the acquired
runtime host interface, contradicting "never released under any code
path". -/
theorem C1_counterexample :
    Event.releaseClrHost ∈ (BootstrapThread envStartFails).1 := by decide

/-- C1 amended: the runtime host reference is released on exactly one
path — the `Start()`-failure path of the worker (where the pointer is
also reset to null); module-detach never releases it and no other path
does. -/
theorem C1_release_exactly_on_start_failure :
    ∀ (env : Env) (st o1 o2 o3 : Bool),
      (Event.releaseClrHost ∈ (BootstrapThread env).1 ↔
        (FAILED env.clrCreateInstanceHr = false ∧ FAILED env.getRuntimeHr = false ∧
         FAILED env.getInterfaceHr = false ∧ FAILED env.startHr = true)) ∧
      Event.releaseClrHost ∉ (DllMainDetach st o1 o2 o3).1 := by
  intro env st o1 o2 o3
  constructor
  · unfold BootstrapThread
    repeat' split <;> simp_all
  · cases st <;> cases o1 <;> cases o2 <;> cases o3 <;> decide

/-- C2 counterexample: with the sibling payload file absent on disk and
every external call succeeding, the worker still performs runtime-hosting
calls (it starts the CLR and invokes the payload): existence is never
checked. -/
theorem C2_counterexample :
    envNoFile.payloadFileExists = false ∧
      Event.startCLR ∈ (BootstrapThread envNoFile).1 ∧
      (BootstrapThread envNoFile).1.any isHostingCall = true := by decide

/-- C2 amended: the worker never checks whether the payload file exists
(its trace and final state are identical whether the file is present or
absent), and the payload path is derived only after the runtime is
started; when path derivation itself fails the worker logs an error and
performs no invocation, but the earlier runtime-hosting calls have
already been made. -/
theorem C2_no_existence_check :
    ∀ (env : Env) (b : Bool),
      BootstrapThread (setPayloadFileExists env b) = BootstrapThread env ∧
      (FAILED env.clrCreateInstanceHr = false →
       FAILED env.getRuntimeHr = false →
       FAILED env.getInterfaceHr = false →
       FAILED env.startHr = false →
       BuildManagedPath env = none →
       (BootstrapThread env).1.all (fun e => !isExec e) = true ∧
         Event.log "RemoteAchiko: Failed to build path to AchikoDLL.dll" []
           ∈ (BootstrapThread env).1) := by
  intro env b
  constructor
  · cases env
    rfl
  · intro h1 h2 h3 h4 h5
    unfold BootstrapThread
    simp_all [List.all_append, List.all_cons, isExec, -List.all_eq_true]

/-- C2 witness: at an environment where the module path is unresolvable,
the behavior is independent of the payload file and the
derivation-failure path logs the error and performs no invocation. -/
theorem C2_witness :
    BootstrapThread (setPayloadFileExists envNoModulePath false) =
        BootstrapThread envNoModulePath ∧
      ((BootstrapThread envNoModulePath).1.all (fun e => !isExec e) = true ∧
        Event.log "RemoteAchiko: Failed to build path to AchikoDLL.dll" []
          ∈ (BootstrapThread envNoModulePath).1) :=
  ⟨(C2_no_existence_check envNoModulePath false).1,
   (C2_no_existence_check envNoModulePath false).2
     (by decide) (by decide) (by decide) (by decide) (by decide)⟩

/-- C3 counterexample: when the runtime starts successfully and the
invocation with the empty argument fails, the worker does not retry: the
trace holds exactly one invocation event, not two. -/
theorem C3_counterexample :
    FAILED envExecFails.executeHr = true ∧
      (BootstrapThread envExecFails).2 = true ∧
      ¬ 2 ≤ ((BootstrapThread envExecFails).1.filter isExec).length := by decide

/-- C3 amended: the worker performs at most one invocation attempt per
run, always with the empty string argument; on failure it logs and stops
with no retry and no alternate argument. -/
theorem C3_single_invocation_attempt :
    ∀ env : Env,
      ((BootstrapThread env).1.filter isExec).length ≤ 1 ∧
        (BootstrapThread env).1.all execArgEmpty = true := by
  intro env
  unfold BootstrapThread
  repeat' split <;>
    simp_all [isExec, execArgEmpty, List.filter_append, List.all_append,
      List.all_cons, -List.all_eq_true]

/-- C4 counterexample: in a fully successful run, runtime-hosting calls
(locator acquisition and runtime start among them) occur strictly before
the path-derivation step, contradicting "path resolution and derivation
precede all runtime-hosting calls". -/
theorem C4_counterexample :
    Event.clrCreateInstance ∈
        (BootstrapThread envOk).1.takeWhile (fun e => e ≠ Event.buildPath) ∧
      Event.startCLR ∈
        (BootstrapThread envOk).1.takeWhile (fun e => e ≠ Event.buildPath) := by
  decide

/-- C4 amended: the worker's actual order is: acquire the runtime
locator, resolve the runtime version, acquire the runtime host, start the
runtime, and only then resolve its own file location and derive the
payload path, then execute the payload entry point. -/
theorem C4_actual_order :
    ∀ (env : Env) (p : List Char),
      FAILED env.clrCreateInstanceHr = false →
      FAILED env.getRuntimeHr = false →
      FAILED env.getInterfaceHr = false →
      FAILED env.startHr = false →
      BuildManagedPath env = some p →
      coreEvents (BootstrapThread env).1 =
        [Event.clrCreateInstance, Event.getRuntime "v4.0.30319",
         Event.releaseMetaHost, Event.getInterface, Event.startCLR,
         Event.releaseRuntimeInfo, Event.buildPath,
         Event.execute p "AchikoDLL.Loader" "Start" ""] := by
  intro env p h1 h2 h3 h4 h5
  unfold BootstrapThread
  simp only [h1, h2, h3, h4, h5, Bool.false_eq_true, if_false]
  split <;>
    simp [coreEvents, isLog, List.filter_append]

/-- C4 witness: the order theorem evaluated at the all-success
environment. -/
theorem C4_witness :
    coreEvents (BootstrapThread envOk).1 =
      [Event.clrCreateInstance, Event.getRuntime "v4.0.30319",
       Event.releaseMetaHost, Event.getInterface, Event.startCLR,
       Event.releaseRuntimeInfo, Event.buildPath,
       Event.execute ("C:\\Game\\AchikoDLL.dll".data)
         "AchikoDLL.Loader" "Start" ""] :=
  C4_actual_order envOk ("C:\\Game\\AchikoDLL.dll".data)
    (by decide) (by decide) (by decide) (by decide) (by decide)

/-- C5 counterexample: when the pipe is not open and the open attempt
fails, the sink gives up after exactly one attempt and performs no sleep:
there is no retry loop and no delay. -/
theorem C5_counterexample :
    (LogToPipe false false [72, 105]).pipeOpenAfter = false ∧
      (LogToPipe false false [72, 105]).openAttempts = 1 ∧
      (LogToPipe false false [72, 105]).sleeps = 0 ∧
      ¬ 2 ≤ (LogToPipe false false [72, 105]).openAttempts := by decide

/-- C5 amended: every `LogToPipe` call makes at most one open attempt and
never sleeps: the logging sink imposes no blocking on the worker
thread. -/
theorem C5_single_attempt_no_sleep :
    ∀ (o st : Bool) (m : List Nat),
      (LogToPipe o st m).openAttempts ≤ 1 ∧ (LogToPipe o st m).sleeps = 0 := by
  intro o st m
  cases st <;> cases o <;> simp [LogToPipe]

/-- C6: if the runtime locator acquisition or the runtime version
resolution fails, the worker never calls `Start` and logs the failing
step's message carrying the status code. -/
theorem C6_no_start_after_early_failure :
    ∀ env : Env,
      FAILED env.clrCreateInstanceHr = true ∨ FAILED env.getRuntimeHr = true →
      Event.startCLR ∉ (BootstrapThread env).1 ∧
        (Event.log "RemoteAchiko: CLRCreateInstance failed: 0x%08X"
            [LogArg.i env.clrCreateInstanceHr] ∈ (BootstrapThread env).1 ∨
          Event.log "RemoteAchiko: GetRuntime failed: 0x%08X"
            [LogArg.i env.getRuntimeHr] ∈ (BootstrapThread env).1) := by
  intro env h
  unfold BootstrapThread
  rcases h with h | h <;> simp_all
  rcases hc : FAILED env.clrCreateInstanceHr <;> simp_all

/-- C6 witness: the theorem evaluated where `GetRuntime` fails. -/
theorem C6_witness :
    Event.startCLR ∉ (BootstrapThread envGetRuntimeFails).1 ∧
      (Event.log "RemoteAchiko: CLRCreateInstance failed: 0x%08X"
          [LogArg.i envGetRuntimeFails.clrCreateInstanceHr]
          ∈ (BootstrapThread envGetRuntimeFails).1 ∨
        Event.log "RemoteAchiko: GetRuntime failed: 0x%08X"
          [LogArg.i envGetRuntimeFails.getRuntimeHr]
          ∈ (BootstrapThread envGetRuntimeFails).1) :=
  C6_no_start_after_early_failure envGetRuntimeFails (Or.inr (by decide))

/-- C7: on module-detach the pipe handle is closed if and only if the
pipe is open at the close check, i.e. iff it was open on entry or one of
the detach log calls' lazy open attempts succeeded; when no open ever
succeeded, no close is performed. -/
theorem C7_close_iff_opened :
    ∀ st o1 o2 o3 : Bool,
      Event.closePipeHandle ∈ (DllMainDetach st o1 o2 o3).1 ↔
        (st || o1 || o2 || o3) = true := by
  intro st o1 o2 o3
  cases st <;> cases o1 <;> cases o2 <;> cases o3 <;> decide

/-- C8: a `LogToPipe` call either writes nothing (pipe unavailable) or
writes exactly the truncated message body followed by the two-byte CRLF
sequence `[13, 10]`. -/
theorem C8_crlf_after_every_message :
    ∀ (o st : Bool) (m : List Nat),
      (LogToPipe o st m).chunks =
        if st || o then [writtenBody m, [13, 10]] else [] := by
  intro o st m
  cases st <;> cases o <;> rfl

/-- C9: at every exit of the bootstrap worker, `g_clrHost` is non-null
iff `Start()` was called and succeeded. -/
theorem C9_clrHost_iff_start_succeeded :
    ∀ env : Env,
      (BootstrapThread env).2 = true ↔
        (Event.startCLR ∈ (BootstrapThread env).1 ∧ FAILED env.startHr = false) := by
  intro env
  unfold BootstrapThread
  repeat' split <;> simp_all

/-- C10: every chunk any `LogToPipe` call writes — in particular the
formatted message body — is at most 1023 bytes long: the fixed 1024-byte
buffer with truncating formatting is never overrun. -/
theorem C10_body_truncated :
    ∀ (o st : Bool) (m : List Nat),
      (LogToPipe o st m).chunks.all (fun c => decide (c.length ≤ 1023)) = true := by
  intro o st m
  have hb := writtenBody_le m
  unfold LogToPipe
  repeat' split <;> simp_all [List.all_cons, -List.all_eq_true]
